import Mathlib

/-!
Shallow embedding of `src/example.py` (the `UploadView` Django view): the
upload reconciliation pipeline of the C11/BW spreadsheet ingester.  Pure data
is modelled directly; the external collaborators (uploader parsing, object
architect, ORM delete) are modelled as oracle inputs describing their outcome,
while the control flow of the view (lines 24-166 of `example.py`) is translated
faithfully.  Machine time is modelled as seconds since the epoch (`Int`);
the `timedelta.days` of Python floors, which is `Int.fdiv` by the seconds of a day.
-/

set_option autoImplicit false

namespace ExamplePy

/-- Actor flags consulted by the view: `is_staff` (cadence bypass),
`is_superuser`, and membership in the `C-Level`/`Sales` groups
(`is_user_in_groups`). -/
structure User where
  is_staff : Bool
  is_superuser : Bool
  in_groups : Bool
deriving DecidableEq, Repr

/-- A persisted `Project` row: a database identity plus the business key
`order_number`. -/
structure Project where
  id : Nat
  order_number : Int
deriving DecidableEq, Repr

/-- Modelled from the spec: the typed record classes produced by
`Uploader.parse_c11_file` / `parse_bw_file` are not part of `src/`; per the
spec each carries a required integer `order_number`, and its `__str__`
(field `str` here) serialises the record beginning with that order number, so
the serialize-then-re-parse round trip of the view recovers `order_number`. -/
structure TypedRecord where
  order_number : Int
  str : String
deriving DecidableEq, Repr

/-- The two kinds of user-facing Django messages the view emits
(`messages.warning` / `messages.error`). -/
inductive MsgKind where
  | warning
  | error
deriving DecidableEq, Repr

/-- Modelled from the spec: `Architect.build_objects` is not part of `src/`;
the spec says it returns aggregate counts over the merged project set. -/
structure Statistics where
  matched : Nat
  c11Only : Nat
  bwOnly : Nat
deriving DecidableEq, Repr

/-- Outcome of one `Uploader.parse_*_file` call, as observed by the view:
a `(data, errors)` pair, or one of the exception classes the view catches
(`WrongExcelFileException`, `OSError`, any other exception). -/
inductive ParseOutcome where
  | ok (data : List TypedRecord) (errors : List String)
  | wrongExcel
  | osError
  | otherExc
deriving DecidableEq, Repr

/-- Outcome of the `architect.build_objects` call: statistics, or an
exception (caught by the generic `except Exception` handler). -/
inductive BuildOutcome where
  | ok (stats : Statistics)
  | raises
deriving DecidableEq, Repr

/-- The `Upload` model row written in the `finally` block (lines 139-145):
creator, truncated file-name label, serialized file content
(`none` models the initial empty string), and the success flag. -/
structure Upload where
  creator : User
  file_name : List Char
  file_content : Option (List (String × List String))
  read_successful : Bool
deriving DecidableEq, Repr

/-- The template render returned to the caller: the bare form
(line 87), the form together with the two per-row error lists
(lines 148-153 and 156-160), or the statistics page (lines 162-166). -/
inductive Render where
  | formOnly (fieldsDisabled : Bool)
  | formWithErrors (bw_errors c11_errors : List String)
  | statisticsPage (data : Option Statistics) (bw_errors c11_errors : List String)
deriving DecidableEq, Repr

def SECONDS_PER_DAY : Int := 86400

/-- Warning text of `__check_upload_allow` (lines 39-41). -/
def cadenceWarning (days : Int) : String :=
  "A file upload is not possible at this time. Next upload will be possible after "
    ++ toString days ++ " day/s"

/-- Warning text of the `WrongExcelFileException` handler (lines 120-123). -/
def wrongExcelWarning : String :=
  "One of the files was not correctly upload. Please make sure files are correctly selected and composed."

/-- Warning text of the `OSError` handler (lines 127-130). -/
def osErrorWarning : String :=
  "One of the files was not an Excel file. Please make sure files are correctly selected and composed."

/-- Error text of the generic `except Exception` handler (lines 132-136). -/
def genericUploadError : String :=
  "There was an error while uploading files"

/-- Log line of the generic `except Exception` handler (lines 133-134). -/
def uploadErrorLog : String :=
  "Files upload error"

/-- Log line emitted before the deletion loop (lines 115-116). -/
def deletingInfoLog : String :=
  "Deleting projects in CDB that were not available in new upload"

/-- Message and log of the `UserNotAllowException` handler in `get`
(lines 59-61). -/
def userNotAllowMsg : String :=
  "User not allowed to perform this action"

def notAllowedLog : String :=
  "User is not allowed to see upload content"

/-- Model of `UploadView.__days_to_next_upload` (lines 24-33): staff actors get 0;
with no prior upload the result is 0; otherwise
`((last_upload.timestamp + timedelta(days=N)) - today_at_midnight_utc).days`,
with `.days` flooring (hence `Int.fdiv`). -/
def days_to_next_upload (user : User) (lastUploadTs : Option Int)
    (uploadAllowedAfterDays : Int) (todayMidnight : Int) : Int :=
  if user.is_staff then 0
  else
    match lastUploadTs with
    | none => 0
    | some ts =>
      (ts + uploadAllowedAfterDays * SECONDS_PER_DAY - todayMidnight).fdiv SECONDS_PER_DAY

/-- Model of `UploadView.__check_upload_allow` (lines 35-44): returns the allow flag
together with the warning message it pushes when denying. -/
def check_upload_allow (user : User) (lastUploadTs : Option Int)
    (uploadAllowedAfterDays : Int) (todayMidnight : Int) :
    Bool × List (MsgKind × String) :=
  let days := days_to_next_upload user lastUploadTs uploadAllowedAfterDays todayMidnight
  if days > 0 then (false, [(MsgKind.warning, cadenceWarning days)])
  else (true, [])

/-- The `file_content` built at lines 98-100, modelled structurally: the JSON
object literal becomes an association list from key to the list of stringified
records stored under that key.  Note the source places the BW records under
the key `"c11_data"` and the C11 records under `"bw_data"`. -/
def fileContent (c11_data bw_data : List TypedRecord) : List (String × List String) :=
  [("c11_data", bw_data.map TypedRecord.str), ("bw_data", c11_data.map TypedRecord.str)]

/-- Modelled from the spec: lines 107-112 re-parse `file_content` to
re-derive the order number of every record (the record classes whose string form
format the slicing relies on are not in `src/`; the spec documents the
round trip as recovering the order numbers).  Iteration follows the key
order of `file_content`: first `"c11_data"`, which holds the BW records,
then `"bw_data"`, which holds the C11 records. -/
def uploadedOrderNumbers (c11_data bw_data : List TypedRecord) : List Int :=
  bw_data.map TypedRecord.order_number ++ c11_data.map TypedRecord.order_number

/-- Model of `Project.objects.exclude(order_number__in=uploaded_order_numbers)`
(line 113): the stored projects whose order number is not in the upload. -/
def extraProjects (store : List Project) (uploaded : List Int) : List Project :=
  store.filter (fun p => decide (p.order_number ∉ uploaded))

/-- The deletion loop of lines 117-118: projects are deleted one at a time,
in order; `deleteFails p = true` models `p.delete()` raising.  Returns the
list of projects actually deleted before any raise, and whether a raise
occurred (stopping the loop). -/
def deleteLoop (deleteFails : Project → Bool) : List Project → List Project × Bool
  | [] => ([], false)
  | p :: ps =>
    if deleteFails p then ([], true)
    else
      let r := deleteLoop deleteFails ps
      (p :: r.1, r.2)

/-- The oracle inputs of one POST request: actor, cadence data
(most recent `Upload.timestamp` and `settings.UPLOAD_ALLOWED_AFTER_DAYS`),
form validity, the two uploaded file names, and the outcomes of the external
calls the view makes. -/
structure PostEnv where
  user : User
  lastUploadTs : Option Int
  uploadAllowedAfterDays : Int
  todayMidnight : Int
  form_valid : Bool
  c11_name : List Char
  bw_name : List Char
  parse_c11 : ParseOutcome
  parse_bw : ParseOutcome
  build : BuildOutcome
  deleteFails : Project → Bool

/-- State at the end of the `try`/`except` chain (lines 95-136), just before
the `finally` block runs. -/
structure TryState where
  upload_successful : Bool
  file_content : Option (List (String × List String))
  c11_data_error : List String
  bw_data_error : List String
  statistics : Option Statistics
  msgs : List (MsgKind × String)
  logs : List String
  store : List Project

/-- The `try` block of lines 95-118 with its `except` handlers
(lines 120-136): parse C11, parse BW, serialize, build objects, set
`upload_successful = True`, then delete stale projects one by one.  Every
caught exception lands in the matching handler; an exception inside the
deletion loop is caught after `upload_successful` was already set. -/
def runTry (env : PostEnv) (store : List Project) : TryState :=
  match env.parse_c11 with
  | ParseOutcome.wrongExcel =>
    { upload_successful := false, file_content := none, c11_data_error := []
      bw_data_error := [], statistics := none
      msgs := [(MsgKind.warning, wrongExcelWarning)], logs := [], store := store }
  | ParseOutcome.osError =>
    { upload_successful := false, file_content := none, c11_data_error := []
      bw_data_error := [], statistics := none
      msgs := [(MsgKind.warning, osErrorWarning)], logs := [], store := store }
  | ParseOutcome.otherExc =>
    { upload_successful := false, file_content := none, c11_data_error := []
      bw_data_error := [], statistics := none
      msgs := [(MsgKind.error, genericUploadError)], logs := [uploadErrorLog], store := store }
  | ParseOutcome.ok c11_data c11_err =>
    match env.parse_bw with
    | ParseOutcome.wrongExcel =>
      { upload_successful := false, file_content := none, c11_data_error := c11_err
        bw_data_error := [], statistics := none
        msgs := [(MsgKind.warning, wrongExcelWarning)], logs := [], store := store }
    | ParseOutcome.osError =>
      { upload_successful := false, file_content := none, c11_data_error := c11_err
        bw_data_error := [], statistics := none
        msgs := [(MsgKind.warning, osErrorWarning)], logs := [], store := store }
    | ParseOutcome.otherExc =>
      { upload_successful := false, file_content := none, c11_data_error := c11_err
        bw_data_error := [], statistics := none
        msgs := [(MsgKind.error, genericUploadError)], logs := [uploadErrorLog], store := store }
    | ParseOutcome.ok bw_data bw_err =>
      let fc := fileContent c11_data bw_data
      match env.build with
      | BuildOutcome.raises =>
        { upload_successful := false, file_content := some fc, c11_data_error := c11_err
          bw_data_error := bw_err, statistics := none
          msgs := [(MsgKind.error, genericUploadError)], logs := [uploadErrorLog], store := store }
      | BuildOutcome.ok stats =>
        let uploaded := uploadedOrderNumbers c11_data bw_data
        let extra := extraProjects store uploaded
        let dl := deleteLoop env.deleteFails extra
        { upload_successful := true, file_content := some fc, c11_data_error := c11_err
          bw_data_error := bw_err, statistics := some stats
          msgs := if dl.2 then [(MsgKind.error, genericUploadError)] else []
          logs := deletingInfoLog :: (if dl.2 then [uploadErrorLog] else [])
          store := store.filter (fun q => decide (q ∉ dl.1)) }

/-- The file-name label stored on the `Upload` row (line 142):
the slice to 99 characters of the c11/bw name label. -/
def mkFileName (c11_name bw_name : List Char) : List Char :=
  ("c11: ".toList ++ c11_name ++ " - bw: ".toList ++ bw_name).take 99

/-- Everything one POST produces: the render returned, the Django messages
pushed, the log lines, the project store after the request, and the `Upload`
rows created by the request. -/
structure PostResult where
  render : Render
  messages : List (MsgKind × String)
  logs : List String
  store : List Project
  newUploads : List Upload
deriving Repr

/-- Model of `UploadView.post` (lines 73-166).  Line 81 denies when the cadence check
fails or the actor is neither superuser nor in the permitted groups; line 89
checks form validity; otherwise the `try`/`except`/`finally` runs, the
`finally` block writes the single `Upload` row, and the render depends on
`upload_successful`. -/
def post (env : PostEnv) (store : List Project) : PostResult :=
  let ca := check_upload_allow env.user env.lastUploadTs env.uploadAllowedAfterDays
    env.todayMidnight
  if !ca.1 || !(env.user.is_superuser || env.user.in_groups) then
    { render := Render.formOnly true, messages := ca.2, logs := [], store := store
      newUploads := [] }
  else if !env.form_valid then
    { render := Render.formWithErrors [] [], messages := ca.2, logs := [], store := store
      newUploads := [] }
  else
    let t := runTry env store
    let upl : Upload :=
      { creator := env.user
        file_name := mkFileName env.c11_name env.bw_name
        file_content := t.file_content
        read_successful := t.upload_successful }
    if !t.upload_successful then
      { render := Render.formWithErrors t.bw_data_error t.c11_data_error
        messages := ca.2 ++ t.msgs, logs := t.logs, store := t.store, newUploads := [upl] }
    else
      { render := Render.statisticsPage t.statistics t.bw_data_error t.c11_data_error
        messages := ca.2 ++ t.msgs, logs := t.logs, store := t.store, newUploads := [upl] }

/-- Condition under which line 81 lets the request through: the cadence
check passes and the actor is superuser or in the permitted groups. -/
def gateOpen (env : PostEnv) : Bool :=
  (check_upload_allow env.user env.lastUploadTs env.uploadAllowedAfterDays
    env.todayMidnight).1
    && (env.user.is_superuser || env.user.in_groups)

/-- What `UploadView.get` (lines 46-71) shows a given actor: the messages
pushed, the log lines, and whether the early `UserNotAllowException` return
(line 62) was taken. -/
structure GetResult where
  messages : List (MsgKind × String)
  logs : List String
  earlyReturn : Bool
deriving DecidableEq, Repr

/-- Model of `UploadView.get` (lines 46-71): superusers skip all checks; otherwise
the cadence check may push its warning, and an actor outside the permitted
groups triggers `UserNotAllowException`, which is logged and surfaced as a
warning. -/
def getView (user : User) (lastUploadTs : Option Int)
    (uploadAllowedAfterDays : Int) (todayMidnight : Int) : GetResult :=
  if user.is_superuser then { messages := [], logs := [], earlyReturn := false }
  else
    let ca := check_upload_allow user lastUploadTs uploadAllowedAfterDays todayMidnight
    if !user.in_groups then
      { messages := ca.2 ++ [(MsgKind.warning, userNotAllowMsg)]
        logs := [notAllowedLog], earlyReturn := true }
    else { messages := ca.2, logs := [], earlyReturn := false }

/-- The pipeline stages up to and including `build_objects` all succeeded:
this is exactly the condition under which line 103 sets
`upload_successful = True`. -/
def pipelineParsedOk (env : PostEnv) : Bool :=
  match env.parse_c11 with
  | ParseOutcome.ok _ _ =>
    match env.parse_bw with
    | ParseOutcome.ok _ _ =>
      match env.build with
      | BuildOutcome.ok _ => true
      | BuildOutcome.raises => false
    | _ => false
  | _ => false


/-- A fully privileged actor used by the concrete evaluations. -/
def adminUser : User := ⟨true, true, true⟩

def envC1 : PostEnv where
  user := adminUser
  lastUploadTs := none
  uploadAllowedAfterDays := 7
  todayMidnight := 0
  form_valid := true
  c11_name := ['a']
  bw_name := ['b']
  parse_c11 := ParseOutcome.ok [⟨101, "p101"⟩] []
  parse_bw := ParseOutcome.ok [⟨104, "p104"⟩] []
  build := BuildOutcome.ok ⟨1, 0, 1⟩
  deleteFails := fun _ => false

def storeC1 : List Project := [⟨1, 101⟩, ⟨2, 102⟩, ⟨3, 103⟩]

def envC2 : PostEnv where
  user := adminUser
  lastUploadTs := none
  uploadAllowedAfterDays := 7
  todayMidnight := 0
  form_valid := true
  c11_name := ['a']
  bw_name := ['b']
  parse_c11 := ParseOutcome.wrongExcel
  parse_bw := ParseOutcome.ok [] []
  build := BuildOutcome.ok ⟨0, 0, 0⟩
  deleteFails := fun _ => false

def storeC2 : List Project := [⟨1, 101⟩, ⟨2, 102⟩]

def envC3 : PostEnv where
  user := adminUser
  lastUploadTs := none
  uploadAllowedAfterDays := 7
  todayMidnight := 0
  form_valid := true
  c11_name := ['a']
  bw_name := ['b']
  parse_c11 := ParseOutcome.ok [⟨101, "p101"⟩] []
  parse_bw := ParseOutcome.ok [⟨104, "p104"⟩] []
  build := BuildOutcome.ok ⟨1, 0, 1⟩
  deleteFails := fun p => p.id == 3

def storeC3 : List Project := [⟨1, 101⟩, ⟨2, 102⟩, ⟨3, 103⟩, ⟨4, 105⟩]

def envC4 : PostEnv where
  user := ⟨false, false, false⟩
  lastUploadTs := none
  uploadAllowedAfterDays := 7
  todayMidnight := 0
  form_valid := true
  c11_name := ['a']
  bw_name := ['b']
  parse_c11 := ParseOutcome.ok [] []
  parse_bw := ParseOutcome.ok [] []
  build := BuildOutcome.ok ⟨0, 0, 0⟩
  deleteFails := fun _ => false

def envC5 : PostEnv where
  user := adminUser
  lastUploadTs := none
  uploadAllowedAfterDays := 7
  todayMidnight := 0
  form_valid := true
  c11_name := ['a']
  bw_name := ['b']
  parse_c11 := ParseOutcome.ok [⟨101, "p101"⟩] []
  parse_bw := ParseOutcome.ok [] []
  build := BuildOutcome.ok ⟨1, 0, 0⟩
  deleteFails := fun p => p.id == 2

def storeC5 : List Project := [⟨1, 101⟩, ⟨2, 102⟩]

def envC7 : PostEnv where
  user := adminUser
  lastUploadTs := none
  uploadAllowedAfterDays := 7
  todayMidnight := 0
  form_valid := true
  c11_name := "a-very-long-c11-export-file-name-that-keeps-going-and-going-until-it-exceeds-the-limit.xlsx".toList
  bw_name := "the-bw-side-export.xlsx".toList
  parse_c11 := ParseOutcome.ok [] []
  parse_bw := ParseOutcome.ok [] []
  build := BuildOutcome.ok ⟨0, 0, 0⟩
  deleteFails := fun _ => false

def storeC7 : List Project := []

def uplC7 : Upload where
  creator := envC7.user
  file_name := mkFileName envC7.c11_name envC7.bw_name
  file_content := (runTry envC7 storeC7).file_content
  read_successful := (runTry envC7 storeC7).upload_successful

def envC8 : PostEnv where
  user := adminUser
  lastUploadTs := none
  uploadAllowedAfterDays := 7
  todayMidnight := 0
  form_valid := true
  c11_name := ['a']
  bw_name := ['b']
  parse_c11 := ParseOutcome.otherExc
  parse_bw := ParseOutcome.ok [] []
  build := BuildOutcome.ok ⟨0, 0, 0⟩
  deleteFails := fun _ => false

def envC8b : PostEnv where
  user := adminUser
  lastUploadTs := none
  uploadAllowedAfterDays := 7
  todayMidnight := 0
  form_valid := true
  c11_name := ['a']
  bw_name := ['b']
  parse_c11 := ParseOutcome.ok [] ["bad row 3"]
  parse_bw := ParseOutcome.wrongExcel
  build := BuildOutcome.ok ⟨0, 0, 0⟩
  deleteFails := fun _ => false

def envC9 : PostEnv where
  user := ⟨false, false, false⟩
  lastUploadTs := none
  uploadAllowedAfterDays := 7
  todayMidnight := 0
  form_valid := true
  c11_name := ['a']
  bw_name := ['b']
  parse_c11 := ParseOutcome.ok [⟨101, "p101"⟩] []
  parse_bw := ParseOutcome.ok [] []
  build := BuildOutcome.ok ⟨1, 0, 0⟩
  deleteFails := fun _ => false

def storeC9 : List Project := [⟨1, 101⟩, ⟨2, 102⟩]

def envC10 : PostEnv where
  user := adminUser
  lastUploadTs := none
  uploadAllowedAfterDays := 7
  todayMidnight := 0
  form_valid := true
  c11_name := ['a']
  bw_name := ['b']
  parse_c11 := ParseOutcome.ok [⟨7, "rowc"⟩] []
  parse_bw := ParseOutcome.ok [⟨9, "rowb"⟩] []
  build := BuildOutcome.ok ⟨1, 0, 0⟩
  deleteFails := fun _ => false

def uplC10 : Upload where
  creator := envC10.user
  file_name := mkFileName envC10.c11_name envC10.bw_name
  file_content := (runTry envC10 []).file_content
  read_successful := (runTry envC10 []).upload_successful

theorem deleteLoop_fst (f : Project → Bool) (l : List Project) :
    (deleteLoop f l).1 = l.takeWhile (fun p => !f p) := by
  induction l with
  | nil => rfl
  | cons p ps ih =>
    by_cases h : f p <;> simp [deleteLoop, List.takeWhile_cons, h, ih]

theorem deleteLoop_no_fail (f : Project → Bool) (l : List Project)
    (h : ∀ p, f p = false) : deleteLoop f l = (l, false) := by
  induction l with
  | nil => rfl
  | cons p ps ih => simp [deleteLoop, h p, ih]

theorem gateOpen_allow {env : PostEnv} (h : gateOpen env = true) :
    (check_upload_allow env.user env.lastUploadTs env.uploadAllowedAfterDays
      env.todayMidnight).1 = true ∧
    (env.user.is_superuser || env.user.in_groups) = true := by
  simpa [gateOpen, Bool.and_eq_true] using h

theorem check_allow_msgs (u : User) (lu : Option Int) (cd mid : Int)
    (h : (check_upload_allow u lu cd mid).1 = true) :
    (check_upload_allow u lu cd mid).2 = [] := by
  by_cases hd : days_to_next_upload u lu cd mid > 0
  · simp [check_upload_allow, hd] at h
  · simp [check_upload_allow, hd]

theorem check_msgs_warning (u : User) (lu : Option Int) (cd mid : Int) :
    ∀ m ∈ (check_upload_allow u lu cd mid).2, m.1 = MsgKind.warning := by
  intro m hm
  by_cases hd : days_to_next_upload u lu cd mid > 0
  · simp [check_upload_allow, hd] at hm
    rw [hm]
  · simp [check_upload_allow, hd] at hm

theorem runTry_successful (env : PostEnv) (store : List Project) :
    (runTry env store).upload_successful = pipelineParsedOk env := by
  rcases hc : env.parse_c11 <;> rcases hb : env.parse_bw <;> rcases hbo : env.build <;>
    simp [runTry, pipelineParsedOk, hc, hb, hbo]

theorem post_open_cases (env : PostEnv) (store : List Project)
    (hgate : gateOpen env = true) (hform : env.form_valid = true) :
    (post env store).newUploads =
        [{ creator := env.user, file_name := mkFileName env.c11_name env.bw_name
           file_content := (runTry env store).file_content
           read_successful := (runTry env store).upload_successful }] ∧
      (post env store).store = (runTry env store).store ∧
      (post env store).messages = (runTry env store).msgs ∧
      (post env store).logs = (runTry env store).logs ∧
      (post env store).render =
        (if (runTry env store).upload_successful then
          Render.statisticsPage (runTry env store).statistics
            (runTry env store).bw_data_error (runTry env store).c11_data_error
        else
          Render.formWithErrors (runTry env store).bw_data_error
            (runTry env store).c11_data_error) := by
  obtain ⟨h1, h2⟩ := gateOpen_allow hgate
  have hmsgs := check_allow_msgs env.user env.lastUploadTs env.uploadAllowedAfterDays
    env.todayMidnight h1
  cases hs : (runTry env store).upload_successful <;>
    simp [post, h1, h2, hform, hmsgs, hs]

/-- C1: for every successful upload attempt (gate open, valid form, both parses
and the object build succeed, and no deletion raises), the set of projects
deleted from the persistent store is exactly the stale set: the surviving
store is precisely the stored projects whose `order_number` occurs among the
order numbers derived from the newly uploaded C11 and BW records. -/
theorem C1_stale_deletion_exact (env : PostEnv) (store : List Project)
    (d1 d2 : List TypedRecord) (e1 e2 : List String) (st : Statistics)
    (hgate : gateOpen env = true) (hform : env.form_valid = true)
    (hc11 : env.parse_c11 = ParseOutcome.ok d1 e1)
    (hbw : env.parse_bw = ParseOutcome.ok d2 e2)
    (hb : env.build = BuildOutcome.ok st)
    (hdel : ∀ p, env.deleteFails p = false) :
    (post env store).store =
      store.filter (fun p => decide (p.order_number ∈ uploadedOrderNumbers d1 d2)) := by
  rw [(post_open_cases env store hgate hform).2.1]
  have hrt : (runTry env store).store =
      store.filter (fun q =>
        decide (q ∉ (deleteLoop env.deleteFails
          (extraProjects store (uploadedOrderNumbers d1 d2))).1)) := by
    simp [runTry, hc11, hbw, hb]
  rw [hrt, deleteLoop_no_fail env.deleteFails _ hdel]
  refine List.filter_congr ?_
  intro q hq
  refine decide_eq_decide.mpr ?_
  constructor
  · intro h
    by_contra hmem
    exact h (List.mem_filter.mpr ⟨hq, by simpa using hmem⟩)
  · intro h hmem
    have h2 := (List.mem_filter.mp hmem).2
    simp at h2
    exact h2 h

/-- Witness for C1: the spec example, with store order numbers 101, 102, 103
and upload order numbers 101, 104, leaves exactly the project numbered 101. -/
theorem C1_stale_deletion_exact_witness :
    (post envC1 storeC1).store =
      storeC1.filter (fun p =>
        decide (p.order_number ∈ uploadedOrderNumbers [⟨101, "p101"⟩] [⟨104, "p104"⟩])) :=
  C1_stale_deletion_exact envC1 storeC1 [⟨101, "p101"⟩] [⟨104, "p104"⟩] [] [] ⟨1, 0, 1⟩
    (by decide) rfl rfl rfl rfl (fun _ => rfl)

/-- C2: if either file parse raises the whole-file structural failure
(`WrongExcelFileException`), reconciliation never runs and the store is
identical before and after the attempt. -/
theorem C2_structural_failure_store_untouched (env : PostEnv) (store : List Project)
    (h : env.parse_c11 = ParseOutcome.wrongExcel ∨ env.parse_bw = ParseOutcome.wrongExcel) :
    (post env store).store = store := by
  rcases h with h | h
  · simp only [post]
    split
    · rfl
    · split
      · rfl
      · simp [runTry, h]
  · simp only [post]
    split
    · rfl
    · split
      · rfl
      · rcases hc : env.parse_c11 <;> simp [runTry, hc, h]

/-- Witness for C2: a concrete attempt whose C11 parse raises the structural
failure leaves the two-project store untouched. -/
theorem C2_structural_failure_store_untouched_witness :
    (post envC2 storeC2).store = storeC2 :=
  C2_structural_failure_store_untouched envC2 storeC2 (Or.inl rfl)

/-- C3 counterexample: stale-entry deletion is not atomic.  With store rows
(1,101), (2,102), (3,103), (4,105) and upload order numbers 104, 101, the
stale rows are (2,102), (3,103), (4,105); when the delete of row 3 raises,
row (2,102) has been deleted while stale row (3,103) survives — an execution
in which only some stale entries are deleted, and the attempt is still
recorded as successful. -/
theorem C3_atomic_deletion_counterexample :
    Project.mk 2 102 ∈ extraProjects storeC3
        (uploadedOrderNumbers [⟨101, "p101"⟩] [⟨104, "p104"⟩]) ∧
      Project.mk 3 103 ∈ extraProjects storeC3
        (uploadedOrderNumbers [⟨101, "p101"⟩] [⟨104, "p104"⟩]) ∧
      Project.mk 2 102 ∉ (post envC3 storeC3).store ∧
      Project.mk 3 103 ∈ (post envC3 storeC3).store ∧
      (post envC3 storeC3).newUploads.map (fun u => u.read_successful) = [true] := by
  decide

/-- C3 amended: deletion is not atomic; the stale entries are removed one at
a time in store order, and if a delete raises partway only the stale entries
before the failing one are removed — the survivors are the stored projects
outside the longest raise-free front of the stale list. -/
theorem C3_deletion_stops_at_failure (env : PostEnv) (store : List Project)
    (d1 d2 : List TypedRecord) (e1 e2 : List String) (st : Statistics)
    (hgate : gateOpen env = true) (hform : env.form_valid = true)
    (hc11 : env.parse_c11 = ParseOutcome.ok d1 e1)
    (hbw : env.parse_bw = ParseOutcome.ok d2 e2)
    (hb : env.build = BuildOutcome.ok st) :
    (post env store).store =
      store.filter (fun q =>
        decide (q ∉ (extraProjects store (uploadedOrderNumbers d1 d2)).takeWhile
          (fun p => !env.deleteFails p))) := by
  rw [(post_open_cases env store hgate hform).2.1]
  simp [runTry, hc11, hbw, hb, deleteLoop_fst]

/-- Witness for the amended C3, on the concrete partially-failing deletion. -/
theorem C3_deletion_stops_at_failure_witness :
    (post envC3 storeC3).store =
      storeC3.filter (fun q =>
        decide (q ∉ (extraProjects storeC3
          (uploadedOrderNumbers [⟨101, "p101"⟩] [⟨104, "p104"⟩])).takeWhile
            (fun p => !envC3.deleteFails p))) :=
  C3_deletion_stops_at_failure envC3 storeC3 [⟨101, "p101"⟩] [⟨104, "p104"⟩] [] [] ⟨1, 0, 1⟩
    (by decide) rfl rfl rfl rfl

/-- C4 counterexample: a POST denied by the permission check (actor neither
superuser nor in the permitted groups) creates no Upload row at all, though
the claim requires exactly one per upload attempt including denied paths. -/
theorem C4_one_record_counterexample : (post envC4 []).newUploads = [] := by
  decide

/-- C4 amended: exactly one Upload row is created iff the attempt passes the
cadence and permission gate and the form validates; denied or invalid-form
attempts create none. -/
theorem C4_one_record_iff_gate (env : PostEnv) (store : List Project) :
    (post env store).newUploads.length =
      if gateOpen env && env.form_valid then 1 else 0 := by
  cases h1 : (check_upload_allow env.user env.lastUploadTs env.uploadAllowedAfterDays
      env.todayMidnight).1 <;>
  cases h2 : env.user.is_superuser || env.user.in_groups <;>
  cases h3 : env.form_valid <;>
  cases h4 : (runTry env store).upload_successful <;>
  simp [post, gateOpen, h1, h2, h3, h4]

/-- C5 counterexample: with one stale row (2,102) whose delete raises, the
generic error handler runs (the pushed message is the generic error), the
stale row survives, yet the recorded success flag is true — the flag was set
before the deletion loop. -/
theorem C5_success_flag_counterexample :
    (post envC5 storeC5).newUploads.map (fun u => u.read_successful) = [true] ∧
      (post envC5 storeC5).messages = [(MsgKind.error, genericUploadError)] ∧
      Project.mk 2 102 ∈ extraProjects storeC5 (uploadedOrderNumbers [⟨101, "p101"⟩] []) ∧
      Project.mk 2 102 ∈ (post envC5 storeC5).store := by
  decide

/-- C5 amended: for every attempt that creates an Upload row, the recorded
`read_successful` equals success of parsing and merging only — an exception
raised during stale-project deletion still records success. -/
theorem C5_success_flag_is_parse_merge (env : PostEnv) (store : List Project)
    (hgate : gateOpen env = true) (hform : env.form_valid = true) :
    (post env store).newUploads.map (fun u => u.read_successful) =
      [pipelineParsedOk env] := by
  rw [(post_open_cases env store hgate hform).1]
  simp [runTry_successful]

/-- Witness for the amended C5, on the concrete failing deletion. -/
theorem C5_success_flag_is_parse_merge_witness :
    (post envC5 storeC5).newUploads.map (fun u => u.read_successful) =
      [pipelineParsedOk envC5] :=
  C5_success_flag_is_parse_merge envC5 storeC5 (by decide) rfl

/-- C6: the cadence gate lets a staff actor through unconditionally and lets
any actor through when no prior upload exists; otherwise the days remaining
are the floored days of `(last_upload + cooldown_days) - today_at_midnight`,
the gate allowing iff that value is at most 0; and with `cooldown_days = 7`
and the last upload three days before a moment of the current day, a
non-staff actor is denied with `days_to_next_upload = 4`. -/
theorem C6_cadence_gate (u : User) (ts cd midnight now : Int) :
    (u.is_staff = true → ∀ lu : Option Int,
      (check_upload_allow u lu cd midnight).1 = true) ∧
    ((check_upload_allow u none cd midnight).1 = true) ∧
    (u.is_staff = false →
      days_to_next_upload u (some ts) cd midnight =
        (ts + cd * SECONDS_PER_DAY - midnight).fdiv SECONDS_PER_DAY ∧
      ((check_upload_allow u (some ts) cd midnight).1 = true ↔
        (ts + cd * SECONDS_PER_DAY - midnight).fdiv SECONDS_PER_DAY ≤ 0)) ∧
    (u.is_staff = false → midnight ≤ now → now < midnight + SECONDS_PER_DAY →
      days_to_next_upload u (some (now - 3 * SECONDS_PER_DAY)) 7 midnight = 4 ∧
      (check_upload_allow u (some (now - 3 * SECONDS_PER_DAY)) 7 midnight).1 = false) := by
  refine ⟨?_, ?_, ?_, ?_⟩
  · intro h lu
    simp [check_upload_allow, days_to_next_upload, h]
  · cases h : u.is_staff <;> simp [check_upload_allow, days_to_next_upload, h]
  · intro h
    have hd : days_to_next_upload u (some ts) cd midnight =
        (ts + cd * SECONDS_PER_DAY - midnight).fdiv SECONDS_PER_DAY := by
      simp [days_to_next_upload, h]
    refine ⟨hd, ?_⟩
    constructor
    · intro hall
      by_contra hgt
      push_neg at hgt
      simp [check_upload_allow, hd, hgt] at hall
    · intro hle
      have hng : ¬ days_to_next_upload u (some ts) cd midnight > 0 := by
        rw [hd]; omega
      simp [check_upload_allow, hng]
  · intro h h1 h2
    have h86 : SECONDS_PER_DAY = (86400 : Int) := rfl
    rw [h86] at h2
    have key : (now - 3 * SECONDS_PER_DAY + 7 * SECONDS_PER_DAY - midnight).fdiv
        SECONDS_PER_DAY = 4 := by
      rw [h86]
      rw [Int.fdiv_eq_ediv _ (by norm_num)]
      have e1 : now - 3 * 86400 + 7 * 86400 - midnight = (now - midnight) + 4 * 86400 := by
        ring
      rw [e1, Int.add_mul_ediv_right _ _ (by norm_num : (86400 : Int) ≠ 0),
        Int.ediv_eq_zero_of_lt (by omega) (by omega)]
      norm_num
    have hd : days_to_next_upload u (some (now - 3 * SECONDS_PER_DAY)) 7 midnight = 4 := by
      simp only [days_to_next_upload, h, Bool.false_eq_true, if_false]
      exact key
    refine ⟨hd, ?_⟩
    simp [check_upload_allow, hd]

/-- Witness for C6: with midnight at 0, the current moment one hour in, and
the last upload exactly three days before that moment, a fully non-privileged
actor is denied with four days remaining. -/
theorem C6_cadence_gate_witness :
    days_to_next_upload ⟨false, false, false⟩ (some (3600 - 3 * SECONDS_PER_DAY)) 7 0 = 4 ∧
    (check_upload_allow ⟨false, false, false⟩ (some (3600 - 3 * SECONDS_PER_DAY)) 7 0).1
      = false :=
  (C6_cadence_gate ⟨false, false, false⟩ 0 7 0 3600).2.2.2 rfl (by decide) (by decide)

/-- C7: for every pair of uploaded file names, the label stored on the Upload
row is the plain concatenated name string truncated to at most 99 characters,
with no other validation applied. -/
theorem C7_file_label_truncated (env : PostEnv) (store : List Project)
    (hgate : gateOpen env = true) (hform : env.form_valid = true) :
    ∀ u ∈ (post env store).newUploads,
      u.file_name =
        ("c11: ".toList ++ env.c11_name ++ " - bw: ".toList ++ env.bw_name).take 99 ∧
      u.file_name.length ≤ 99 := by
  rw [(post_open_cases env store hgate hform).1]
  intro u hu
  rw [List.mem_singleton] at hu
  subst hu
  refine ⟨rfl, ?_⟩
  simp only [mkFileName, List.length_take]
  exact min_le_left _ _

/-- Witness for C7: a long C11 name plus the BW name is truncated to exactly
the 99-character front of the raw label. -/
theorem C7_file_label_truncated_witness :
    uplC7.file_name =
      ("c11: ".toList ++ envC7.c11_name ++ " - bw: ".toList ++ envC7.bw_name).take 99 ∧
    uplC7.file_name.length ≤ 99 :=
  C7_file_label_truncated envC7 storeC7 (by decide) rfl uplC7 (by decide)

/-- C8 counterexample: a total failure caused by a generic exception in the
C11 parse is surfaced with `messages.error`, not with a warning message, so
the claimed "error sequences plus a user-facing warning" output does not
hold for every failure. -/
theorem C8_output_counterexample :
    (post envC8 []).render = Render.formWithErrors [] [] ∧
      (post envC8 []).messages = [(MsgKind.error, genericUploadError)] := by
  decide

/-- C8 amended: on success the caller receives the statistics page carrying
the Statistics and both error sequences; on failure the caller receives the
form page with both error sequences, accompanied by a warning for the
structural file errors (wrong Excel file, non-Excel file) but by a generic
error message — not a warning — for any other exception. -/
theorem C8_output_shape (env : PostEnv) (store : List Project)
    (hgate : gateOpen env = true) (hform : env.form_valid = true) :
    (∀ d1 e1 d2 e2 st, env.parse_c11 = ParseOutcome.ok d1 e1 →
        env.parse_bw = ParseOutcome.ok d2 e2 → env.build = BuildOutcome.ok st →
        (post env store).render = Render.statisticsPage (some st) e2 e1) ∧
      (∀ d1 e1 d2 e2, env.parse_c11 = ParseOutcome.ok d1 e1 →
        env.parse_bw = ParseOutcome.ok d2 e2 → env.build = BuildOutcome.raises →
        (post env store).render = Render.formWithErrors e2 e1 ∧
        (post env store).messages = [(MsgKind.error, genericUploadError)]) ∧
      (env.parse_c11 = ParseOutcome.wrongExcel →
        (post env store).render = Render.formWithErrors [] [] ∧
        (post env store).messages = [(MsgKind.warning, wrongExcelWarning)]) ∧
      (env.parse_c11 = ParseOutcome.osError →
        (post env store).render = Render.formWithErrors [] [] ∧
        (post env store).messages = [(MsgKind.warning, osErrorWarning)]) ∧
      (env.parse_c11 = ParseOutcome.otherExc →
        (post env store).render = Render.formWithErrors [] [] ∧
        (post env store).messages = [(MsgKind.error, genericUploadError)]) ∧
      (∀ d1 e1, env.parse_c11 = ParseOutcome.ok d1 e1 →
        env.parse_bw = ParseOutcome.wrongExcel →
        (post env store).render = Render.formWithErrors [] e1 ∧
        (post env store).messages = [(MsgKind.warning, wrongExcelWarning)]) ∧
      (∀ d1 e1, env.parse_c11 = ParseOutcome.ok d1 e1 →
        env.parse_bw = ParseOutcome.osError →
        (post env store).render = Render.formWithErrors [] e1 ∧
        (post env store).messages = [(MsgKind.warning, osErrorWarning)]) ∧
      (∀ d1 e1, env.parse_c11 = ParseOutcome.ok d1 e1 →
        env.parse_bw = ParseOutcome.otherExc →
        (post env store).render = Render.formWithErrors [] e1 ∧
        (post env store).messages = [(MsgKind.error, genericUploadError)]) := by
  obtain ⟨hU, hS, hM, hL, hR⟩ := post_open_cases env store hgate hform
  refine ⟨?_, ?_, ?_, ?_, ?_, ?_, ?_, ?_⟩
  · intro d1 e1 d2 e2 st ha hb hc
    rw [hR]
    simp [runTry, ha, hb, hc]
  · intro d1 e1 d2 e2 ha hb hc
    exact ⟨by rw [hR]; simp [runTry, ha, hb, hc], by rw [hM]; simp [runTry, ha, hb, hc]⟩
  · intro ha
    exact ⟨by rw [hR]; simp [runTry, ha], by rw [hM]; simp [runTry, ha]⟩
  · intro ha
    exact ⟨by rw [hR]; simp [runTry, ha], by rw [hM]; simp [runTry, ha]⟩
  · intro ha
    exact ⟨by rw [hR]; simp [runTry, ha], by rw [hM]; simp [runTry, ha]⟩
  · intro d1 e1 ha hb
    exact ⟨by rw [hR]; simp [runTry, ha, hb], by rw [hM]; simp [runTry, ha, hb]⟩
  · intro d1 e1 ha hb
    exact ⟨by rw [hR]; simp [runTry, ha, hb], by rw [hM]; simp [runTry, ha, hb]⟩
  · intro d1 e1 ha hb
    exact ⟨by rw [hR]; simp [runTry, ha, hb], by rw [hM]; simp [runTry, ha, hb]⟩

/-- Witness for the amended C8: a BW file that raises the wrong-Excel
structural failure yields the form page with the C11 row errors and the
wrong-Excel warning. -/
theorem C8_output_shape_witness :
    (post envC8b []).render = Render.formWithErrors [] ["bad row 3"] ∧
    (post envC8b []).messages = [(MsgKind.warning, wrongExcelWarning)] :=
  (C8_output_shape envC8b [] (by decide) rfl).2.2.2.2.2.1 [] ["bad row 3"] rfl rfl

/-- C9 counterexample: a POST by an actor lacking the required role is
denied — the store and audit log are untouched — but nothing is logged and
no message at all is pushed, so the denial is not surfaced as a warning. -/
theorem C9_permission_counterexample :
    (post envC9 storeC9).messages = [] ∧
      (post envC9 storeC9).logs = [] ∧
      (post envC9 storeC9).store = storeC9 ∧
      (post envC9 storeC9).newUploads = [] := by
  decide

/-- C9 amended: when the actor lacks the required role, reconciliation never
starts and the store is untouched; the GET view logs the denial and surfaces
it as a warning distinct from a generic error, but the POST handler only
re-renders the disabled form, pushing no message beyond a possible cadence
warning and logging nothing. -/
theorem C9_permission_denied_behaviour :
    (∀ (env : PostEnv) (store : List Project),
      env.user.is_superuser = false → env.user.in_groups = false →
      (post env store).store = store ∧
      (post env store).newUploads = [] ∧
      (post env store).logs = [] ∧
      (post env store).render = Render.formOnly true ∧
      (post env store).messages =
        (check_upload_allow env.user env.lastUploadTs env.uploadAllowedAfterDays
          env.todayMidnight).2) ∧
    (∀ (u : User) (lu : Option Int) (cd mid : Int),
      u.is_superuser = false → u.in_groups = false →
      (MsgKind.warning, userNotAllowMsg) ∈ (getView u lu cd mid).messages ∧
      (getView u lu cd mid).logs = [notAllowedLog] ∧
      (getView u lu cd mid).earlyReturn = true ∧
      ∀ m ∈ (getView u lu cd mid).messages, m.1 = MsgKind.warning) := by
  constructor
  · intro env store h1 h2
    simp [post, h1, h2]
  · intro u lu cd mid h1 h2
    refine ⟨?_, ?_, ?_, ?_⟩
    · simp [getView, h1, h2]
    · simp [getView, h1, h2]
    · simp [getView, h1, h2]
    · intro m hm
      simp only [getView, h1, h2] at hm
      simp only [Bool.false_eq_true, if_false, Bool.not_false, if_true] at hm
      rw [List.mem_append] at hm
      rcases hm with hm | hm
      · exact check_msgs_warning u lu cd mid m hm
      · rw [List.mem_singleton] at hm
        rw [hm]

/-- Witness for the amended C9: the concrete role-less actor is denied in
POST with no message and no log, and in GET with the logged warning. -/
theorem C9_permission_denied_behaviour_witness :
    (post envC9 storeC9).messages =
      (check_upload_allow envC9.user envC9.lastUploadTs envC9.uploadAllowedAfterDays
        envC9.todayMidnight).2 ∧
    (getView ⟨false, false, false⟩ none 7 0).logs = [notAllowedLog] :=
  ⟨(C9_permission_denied_behaviour.1 envC9 storeC9 rfl rfl).2.2.2.2,
    (C9_permission_denied_behaviour.2 ⟨false, false, false⟩ none 7 0 rfl rfl).2.1⟩

/-- C10: on every successfully parsed attempt the stored `file_content` maps
the JSON key `c11_data` to the stringified BW records and the key `bw_data`
to the stringified C11 records — the labels are swapped relative to the
sources they name. -/
theorem C10_file_content_keys_swapped (env : PostEnv) (store : List Project)
    (d1 d2 : List TypedRecord) (e1 e2 : List String)
    (hgate : gateOpen env = true) (hform : env.form_valid = true)
    (hc11 : env.parse_c11 = ParseOutcome.ok d1 e1)
    (hbw : env.parse_bw = ParseOutcome.ok d2 e2) :
    ∀ u ∈ (post env store).newUploads,
      u.file_content = some (fileContent d1 d2) ∧
      (fileContent d1 d2).lookup "c11_data" = some (d2.map TypedRecord.str) ∧
      (fileContent d1 d2).lookup "bw_data" = some (d1.map TypedRecord.str) := by
  rw [(post_open_cases env store hgate hform).1]
  intro u hu
  rw [List.mem_singleton] at hu
  subst hu
  refine ⟨?_, rfl, rfl⟩
  cases hb : env.build <;> simp [runTry, hc11, hbw, hb]

/-- Witness for C10: the concrete attempt with one C11 record and one BW
record stores the BW string under `c11_data` and the C11 string under
`bw_data`. -/
theorem C10_file_content_keys_swapped_witness :
    uplC10.file_content = some (fileContent [⟨7, "rowc"⟩] [⟨9, "rowb"⟩]) ∧
    (fileContent [⟨7, "rowc"⟩] [⟨9, "rowb"⟩]).lookup "c11_data"
      = some ([⟨9, "rowb"⟩].map TypedRecord.str) ∧
    (fileContent [⟨7, "rowc"⟩] [⟨9, "rowb"⟩]).lookup "bw_data"
      = some ([⟨7, "rowc"⟩].map TypedRecord.str) :=
  C10_file_content_keys_swapped envC10 [] [⟨7, "rowc"⟩] [⟨9, "rowb"⟩] [] []
    (by decide) rfl rfl rfl uplC10 (by decide)

end ExamplePy
